import Mathlib

/-!
Shallow embedding of the MQTT client session engine of the hebo repository
(`src/mqtt/`): the connection state machine and request handlers of
`MqttClient` (mqtt_client.cpp), the subscription registry
(`SubscriptionModel`, subscription_model.cpp) and the message log
(`MessageStreamModel`, message_stream_model.cpp), together with the worker
callbacks installed in `MqttClient::requestConnect`.

Qt specifics are modelled as follows: a `QString` is a `String`, a
`QByteArray` is a `List Nat` of byte values, a `QColor` is an opaque tag
(claims never inspect color values, so `parseColor` is embedded as an
injective constructor), signal emissions are collected into explicit event
lists, and the operations issued on the underlying `mqtt_cpp` asynchronous
client are collected into a list of network operations.
-/

namespace Hebo

/-- `ConnectionState` from `src/formats/connect_config.h`. -/
inductive ConnectionState where
  | ConnectionDisconnected
  | ConnectionConnecting
  | ConnectionConnected
  | ConnectionConnectFailed
  | ConnectionDisconnecting
  deriving DecidableEq

/-- `QoS` from `src/formats/connect_config.h`. -/
inductive QoS where
  | AtMostOnce
  | AtLeastOnce
  | ExactOnce
  deriving DecidableEq

/-- `QColor`, abstracted: `Qt::red` (used by the `SubscriptionModel`
constructor) and the result of `hebo::parseColor` on a color string.
No claim inspects color values, so the parse is kept opaque. -/
inductive Color where
  | red
  | parsed (value : String)
  deriving DecidableEq

/-- `hebo::parseColor` from `src/base/color.cpp`, abstracted as an opaque
injective tag on the input string. -/
def parseColor (value : String) : Color :=
  Color.parsed value

/-- `struct Subscription` from `src/mqtt/subscription_model.h`. -/
structure Subscription where
  topic : String
  qos : QoS
  color : Color
  deriving DecidableEq

/-- `struct MqttMessage` from `src/mqtt/message_stream_model.h`.
The `QDateTime timestamp` field (wall-clock time of construction) is not
modelled; no claim mentions it. -/
structure MqttMessage where
  topic : String
  qos : QoS
  is_publish : Bool
  payload : List Nat
  deriving DecidableEq

/-- `SubscriptionModel::hasSubscription` (subscription_model.cpp, lines
57-64): linear scan for an entry with the given topic. -/
def hasSubscription (list : List Subscription) (topic : String) : Bool :=
  list.any fun sub => sub.topic == topic

/-- `SubscriptionModel::addSubscription` (subscription_model.cpp, lines
66-74): returns `false` and leaves the list unchanged if the topic is
already present, otherwise appends `{topic, parseColor(color), qos}`. -/
def addSubscription (list : List Subscription) (topic : String) (qos : QoS)
    (color : String) : Bool × List Subscription :=
  if hasSubscription list topic then (false, list)
  else (true, list ++ [{ topic := topic, qos := qos, color := parseColor color }])

/-- `SubscriptionModel::removeSubscription` (subscription_model.cpp, lines
76-86): removes the first entry with the given topic and returns `true`,
or returns `false` leaving the list unchanged. -/
def removeSubscription : List Subscription → String → Bool × List Subscription
  | [], _ => (false, [])
  | sub :: rest, topic =>
    if sub.topic == topic then (true, rest)
    else
      let r := removeSubscription rest topic
      (r.1, sub :: r.2)

/-- The list built by the `SubscriptionModel` constructor
(subscription_model.cpp, lines 18-20): it appends
`Subscription{"Hello", Qt::red, AtMostOnce}` to the empty list. -/
def initialSubscriptions : List Subscription :=
  [{ topic := "Hello", qos := QoS.AtMostOnce, color := Color.red }]

/-- The row range announced by `beginInsertRows(QModelIndex(), pos, pos)`
in `MessageStreamModel::addMessage`. -/
structure RowsInsertedEvent where
  first : Nat
  last : Nat
  deriving DecidableEq

/-- `MessageStreamModel::addMessage` (message_stream_model.cpp, lines
54-59): `pos = length`, announce insertion of rows `[pos, pos]`, append. -/
def addMessage (messages : List MqttMessage) (message : MqttMessage) :
    List MqttMessage × RowsInsertedEvent :=
  let pos := messages.length
  (messages ++ [message], { first := pos, last := pos })

/-- A `QModelIndex` as far as `SubscriptionModel::data` consults it: its
validity flag and its row. -/
structure QModelIndex where
  valid : Bool
  row : Nat
  deriving DecidableEq

/-- The `QVariant` values that `SubscriptionModel::data` can return. -/
inductive QVariant where
  | empty
  | ofString (value : String)
  | ofColor (value : Color)
  | ofQoS (value : QoS)
  deriving DecidableEq

/-- `SubscriptionModel::SubscriptionRole` (subscription_model.h). -/
inductive SubscriptionRole where
  | kTopicRole
  | kDescriptionRole
  | kColorRole
  | kQoSRole
  deriving DecidableEq

/-- `SubscriptionModel::data` (subscription_model.cpp, lines 28-47): if
`index.isValid()` it returns the empty `QVariant`; otherwise it reads
`list_.at(index.row())` and switches on the role (`kDescriptionRole` and
unknown roles fall to the `default:` branch). A `list_.at` access out of
range is undefined behaviour in Qt and is modelled as the empty variant. -/
def subscriptionModelData (list : List Subscription) (index : QModelIndex)
    (role : SubscriptionRole) : QVariant :=
  if index.valid then QVariant.empty
  else
    match list.get? index.row with
    | none => QVariant.empty
    | some sub =>
      match role with
      | SubscriptionRole.kTopicRole => QVariant.ofString sub.topic
      | SubscriptionRole.kColorRole => QVariant.ofColor sub.color
      | SubscriptionRole.kQoSRole => QVariant.ofQoS sub.qos
      | SubscriptionRole.kDescriptionRole => QVariant.empty

/-- The observable state of one `MqttClient` (mqtt_client.h): the
`state_` member, the `SubscriptionModel` list and the
`MessageStreamModel` list. -/
structure MqttClientState where
  state : ConnectionState
  subscriptions : List Subscription
  messages : List MqttMessage
  deriving DecidableEq

/-- A freshly constructed `MqttClient`: `state_` is initialised to
`ConnectionDisconnected` (mqtt_client.h, line 65), the subscription model
to the constructor list, and the message model to the empty list. -/
def initialClient : MqttClientState :=
  { state := ConnectionState.ConnectionDisconnected
    subscriptions := initialSubscriptions
    messages := [] }

/-- The signals `MqttClient` declares towards the UI (mqtt_client.h,
lines 49-54). The four `...Result` signals are declared but never
emitted anywhere in mqtt_client.cpp. -/
inductive UiEvent where
  | stateChanged (state : ConnectionState)
  | disconnectResult (ok : Bool) (error : String)
  | subscribeResult (topic : String) (ok : Bool) (error : String)
  | unsubscribeResult (topic : String) (ok : Bool) (error : String)
  | publishResult (topic : String) (ok : Bool) (error : String)
  deriving DecidableEq

/-- Operations issued on the underlying `mqtt_cpp` asynchronous client. -/
inductive NetOp where
  | asyncConnect
  | asyncDisconnect
  | asyncSubscribe (topic : String) (qos : QoS)
  | asyncUnsubscribe (topic : String)
  | asyncPublish (topic : String) (payload : List Nat) (qos : QoS) (retain : Bool)
  deriving DecidableEq

/-- The synchronous outcome of a request slot: the `request*` methods
return `void`, but each rejection branch logs a distinct warning
(`"Invalid state"`, `"Topic already subscribed"`, `"Topic with name not
subscribed"`); those branches are the result values here. -/
inductive RequestResult where
  | ok
  | invalidStateError
  | duplicateSubscriptionError
  | notSubscribedError
  deriving DecidableEq

/-- Everything one request or worker callback produces: the new client
state, the emitted UI events, the network operations issued, and the
synchronous outcome. -/
structure StepOut where
  next : MqttClientState
  events : List UiEvent
  ops : List NetOp
  result : RequestResult
  deriving DecidableEq

/-- `MqttClient::setState` (mqtt_client.cpp, lines 56-59): store the new
state and emit `stateChanged`. -/
def setState (c : MqttClientState) (state : ConnectionState) :
    MqttClientState × List UiEvent :=
  ({ c with state := state }, [UiEvent.stateChanged state])

/-- `MqttClient::requestConnect` (mqtt_client.cpp, lines 61-112): builds
the async client, installs the handlers, calls `async_connect`, starts the
poll timer and calls `setState(ConnectionConnecting)`. There is no check
of the current state: the method behaves identically in every state. -/
def requestConnect (c : MqttClientState) : StepOut :=
  let s := setState c ConnectionState.ConnectionConnecting
  { next := s.1
    events := s.2
    ops := [NetOp.asyncConnect]
    result := RequestResult.ok }

/-- `MqttClient::requestDisconnect` (mqtt_client.cpp, lines 114-119):
calls `setState(ConnectionDisconnecting)` and `async_disconnect`. There is
no check of the current state. -/
def requestDisconnect (c : MqttClientState) : StepOut :=
  let s := setState c ConnectionState.ConnectionDisconnecting
  { next := s.1
    events := s.2
    ops := [NetOp.asyncDisconnect]
    result := RequestResult.ok }

/-- `MQTT_NS::allocate_buffer(payload.constData())` interprets the byte
array as a NUL-terminated C string: the bytes actually sent are the bytes
up to (excluding) the first zero byte. -/
def cStringBytes (payload : List Nat) : List Nat :=
  payload.takeWhile fun b => b != 0

/-- `MqttClient::requestSubscribe` (mqtt_client.cpp, lines 126-143):
rejected unless `state_ == ConnectionConnected`; rejected if the topic is
already registered; otherwise registers the subscription optimistically
and issues `async_subscribe(topic, qos)`. -/
def requestSubscribe (c : MqttClientState) (topic : String) (qos : QoS)
    (color : String) : StepOut :=
  if c.state ≠ ConnectionState.ConnectionConnected then
    { next := c, events := [], ops := [], result := RequestResult.invalidStateError }
  else if hasSubscription c.subscriptions topic then
    { next := c, events := [], ops := [], result := RequestResult.duplicateSubscriptionError }
  else
    { next := { c with subscriptions := (addSubscription c.subscriptions topic qos color).2 }
      events := []
      ops := [NetOp.asyncSubscribe topic qos]
      result := RequestResult.ok }

/-- `MqttClient::requestUnsubscribe` (mqtt_client.cpp, lines 145-158):
rejected unless `state_ == ConnectionConnected`; removes the registry
entry and issues `async_unsubscribe` if present, otherwise warns. -/
def requestUnsubscribe (c : MqttClientState) (topic : String) : StepOut :=
  if c.state ≠ ConnectionState.ConnectionConnected then
    { next := c, events := [], ops := [], result := RequestResult.invalidStateError }
  else
    let r := removeSubscription c.subscriptions topic
    if r.1 then
      { next := { c with subscriptions := r.2 }
        events := []
        ops := [NetOp.asyncUnsubscribe topic]
        result := RequestResult.ok }
    else
      { next := c, events := [], ops := [], result := RequestResult.notSubscribedError }

/-- `MqttClient::requestPublish` (mqtt_client.cpp, lines 160-180):
rejected unless `state_ == ConnectionConnected`; issues
`async_publish(allocate_buffer(topic), allocate_buffer(payload.constData()),
MQTT_NS::qos::exactly_once, ...)` — note the hard-coded QoS and the
C-string payload — then appends an outbound `MqttMessage` carrying the
caller's topic, qos and full payload to the message model. -/
def requestPublish (c : MqttClientState) (topic : String) (qos : QoS)
    (payload : List Nat) : StepOut :=
  if c.state ≠ ConnectionState.ConnectionConnected then
    { next := c, events := [], ops := [], result := RequestResult.invalidStateError }
  else
    let message : MqttMessage :=
      { topic := topic, qos := qos, is_publish := true, payload := payload }
    { next := { c with messages := (addMessage c.messages message).1 }
      events := []
      ops := [NetOp.asyncPublish topic (cStringBytes payload) QoS.ExactOnce false]
      result := RequestResult.ok }

/-- `MQTT_NS::connect_return_code`: the broker's CONNACK verdict. -/
inductive ConnectReturnCode where
  | accepted
  | unacceptableProtocolVersion
  | identifierRejected
  | serverUnavailable
  | badUserNameOrPassword
  | notAuthorized
  deriving DecidableEq

/-- The worker callbacks that `MqttClient::requestConnect` installs on the
`mqtt_cpp` client: the connack handler, the publish (inbound message)
handler, the close handler and the error handler. -/
inductive WorkerEvent where
  | connack (sessionPresent : Bool) (returnCode : ConnectReturnCode)
  | publishReceived (topic : String) (qos : QoS) (payload : List Nat)
  | closed
  | transportError (message : String)
  deriving DecidableEq

/-- The handlers installed in `MqttClient::requestConnect` (mqtt_client.cpp,
lines 71-107): the connack handler calls `setState(ConnectionConnected)`
with the return code explicitly unused (`Q_UNUSED(rc)`); the publish
handler appends an inbound message to the message model; the close handler
calls `setState(ConnectionDisconnected)`; the error handler only logs a
warning. -/
def handleWorkerEvent (c : MqttClientState) (event : WorkerEvent) : StepOut :=
  match event with
  | WorkerEvent.connack _ _ =>
    let s := setState c ConnectionState.ConnectionConnected
    { next := s.1, events := s.2, ops := [], result := RequestResult.ok }
  | WorkerEvent.publishReceived topic qos payload =>
    let message : MqttMessage :=
      { topic := topic, qos := qos, is_publish := false, payload := payload }
    { next := { c with messages := (addMessage c.messages message).1 }
      events := [], ops := [], result := RequestResult.ok }
  | WorkerEvent.closed =>
    let s := setState c ConnectionState.ConnectionDisconnected
    { next := s.1, events := s.2, ops := [], result := RequestResult.ok }
  | WorkerEvent.transportError _ =>
    { next := c, events := [], ops := [], result := RequestResult.ok }

/-- One externally observable stimulus on a client: a UI request slot or a
worker callback. -/
inductive Action where
  | reqConnect
  | reqDisconnect
  | reqSubscribe (topic : String) (qos : QoS) (color : String)
  | reqUnsubscribe (topic : String)
  | reqPublish (topic : String) (qos : QoS) (payload : List Nat)
  | worker (event : WorkerEvent)
  deriving DecidableEq

/-- Dispatch one action to the corresponding source handler. -/
def step (c : MqttClientState) (a : Action) : StepOut :=
  match a with
  | Action.reqConnect => requestConnect c
  | Action.reqDisconnect => requestDisconnect c
  | Action.reqSubscribe topic qos color => requestSubscribe c topic qos color
  | Action.reqUnsubscribe topic => requestUnsubscribe c topic
  | Action.reqPublish topic qos payload => requestPublish c topic qos payload
  | Action.worker event => handleWorkerEvent c event

/-- Run a sequence of actions from a client state. -/
def run (c : MqttClientState) : List Action → MqttClientState
  | [] => c
  | a :: rest => run (step c a).next rest

/-- Whether an action is an unsubscribe request for the given topic. -/
def isUnsubscribeOf (topic : String) : Action → Bool
  | Action.reqUnsubscribe t => t == topic
  | _ => false

/-- Number of registry entries carrying the given topic. -/
def countTopic (list : List Subscription) (topic : String) : Nat :=
  (list.filter fun sub => sub.topic == topic).length

/-- Topic strings are unique within a registry list. -/
def topicsNodup (list : List Subscription) : Prop :=
  (list.map Subscription.topic).Nodup

/-- Every event a step emits is a `stateChanged` event. -/
def isStateChangedEvent : UiEvent → Bool
  | UiEvent.stateChanged _ => true
  | _ => false

/-! ### Helper lemmas -/

/-- Worker callbacks never touch the subscription registry: none of the
four handlers installed in `requestConnect` mentions `subscriptions_`. -/
lemma handleWorkerEvent_subscriptions (c : MqttClientState) (e : WorkerEvent) :
    (handleWorkerEvent c e).next.subscriptions = c.subscriptions := by
  cases e <;> rfl

/-- The state after one step is either unchanged or one of the four states
that `setState` is called with; `ConnectionConnectFailed` is not one of
them. -/
lemma step_state_cases (c : MqttClientState) (a : Action) :
    (step c a).next.state = c.state ∨
    (step c a).next.state = ConnectionState.ConnectionConnecting ∨
    (step c a).next.state = ConnectionState.ConnectionDisconnecting ∨
    (step c a).next.state = ConnectionState.ConnectionConnected ∨
    (step c a).next.state = ConnectionState.ConnectionDisconnected := by
  cases a with
  | reqConnect => exact Or.inr (Or.inl rfl)
  | reqDisconnect => exact Or.inr (Or.inr (Or.inl rfl))
  | reqSubscribe topic qos color =>
    left
    simp only [step, requestSubscribe]
    split_ifs <;> rfl
  | reqUnsubscribe topic =>
    left
    simp only [step, requestUnsubscribe]
    split_ifs <;> rfl
  | reqPublish topic qos payload =>
    left
    simp only [step, requestPublish]
    split_ifs <;> rfl
  | worker e =>
    cases e with
    | connack sp rc => exact Or.inr (Or.inr (Or.inr (Or.inl rfl)))
    | publishReceived topic qos payload => exact Or.inl rfl
    | closed => exact Or.inr (Or.inr (Or.inr (Or.inr rfl)))
    | transportError msg => exact Or.inl rfl

/-- The only signal any step emits is `stateChanged`: the `...Result`
signals declared in mqtt_client.h are never emitted. -/
lemma step_events_stateChanged (c : MqttClientState) (a : Action) :
    ((step c a).events.all isStateChangedEvent) = true := by
  cases a with
  | reqConnect => rfl
  | reqDisconnect => rfl
  | reqSubscribe topic qos color =>
    simp only [step, requestSubscribe]
    split_ifs <;> rfl
  | reqUnsubscribe topic =>
    simp only [step, requestUnsubscribe]
    split_ifs <;> rfl
  | reqPublish topic qos payload =>
    simp only [step, requestPublish]
    split_ifs <;> rfl
  | worker e => cases e <;> rfl

/-- A topic is present exactly when the registry holds at least one entry
for it. -/
lemma hasSubscription_iff_countTopic (l : List Subscription) (T : String) :
    hasSubscription l T = true ↔ 0 < countTopic l T := by
  induction l with
  | nil => simp [hasSubscription, countTopic]
  | cons s rest ih =>
    by_cases h : s.topic == T
    · simp [hasSubscription, countTopic, List.filter_cons, h]
    · simp only [hasSubscription, List.any_cons, h, Bool.false_or] at ih ⊢
      simpa [countTopic, List.filter_cons, h] using ih

/-- A topic is present exactly when it occurs among the mapped topics. -/
lemma hasSubscription_iff_mem (l : List Subscription) (T : String) :
    hasSubscription l T = true ↔ T ∈ l.map Subscription.topic := by
  simp [hasSubscription, List.any_eq_true, List.mem_map, beq_iff_eq]

/-- Appending one entry adds one to its topic's count and nothing to any
other topic's count. -/
lemma countTopic_append (l : List Subscription) (sub : Subscription) (T : String) :
    countTopic (l ++ [sub]) T
      = countTopic l T + (if sub.topic == T then 1 else 0) := by
  simp only [countTopic, List.filter_append, List.length_append]
  by_cases h : sub.topic == T <;> simp [List.filter_cons, h]

/-- The count over a cons: one more when the head carries the topic. -/
lemma countTopic_cons (s : Subscription) (l : List Subscription) (T : String) :
    countTopic (s :: l) T
      = countTopic l T + (if s.topic == T then 1 else 0) := by
  by_cases h : s.topic == T <;> simp [countTopic, List.filter_cons, h]

/-- Removing the first entry of one topic does not change the count of a
different topic. -/
lemma countTopic_removeSubscription (l : List Subscription) (t T : String)
    (h : t ≠ T) :
    countTopic (removeSubscription l t).2 T = countTopic l T := by
  induction l with
  | nil => rfl
  | cons s rest ih =>
    simp only [removeSubscription]
    by_cases hst : s.topic == t
    · have hsT : (s.topic == T) = false := by
        have hs : s.topic = t := eq_of_beq hst
        simp [hs, h]
      simp [hst, countTopic_cons, hsT]
    · simp [hst, countTopic_cons, ih]

/-- An action that is not an unsubscribe of `T` preserves a positive count
of `T` exactly: present topics are neither duplicated nor dropped. -/
lemma countTopic_step (c : MqttClientState) (a : Action) (T : String)
    (hna : isUnsubscribeOf T a = false)
    (hpos : 0 < countTopic c.subscriptions T) :
    countTopic (step c a).next.subscriptions T = countTopic c.subscriptions T := by
  cases a with
  | reqConnect => rfl
  | reqDisconnect => rfl
  | worker e => rw [step, handleWorkerEvent_subscriptions]
  | reqSubscribe t q col =>
    simp only [step, requestSubscribe]
    split_ifs with h1 h2
    · rfl
    · rfl
    · have hts : (t == T) = false := by
        cases hb : (t == T) with
        | false => rfl
        | true =>
          have ht : t = T := eq_of_beq hb
          subst ht
          exact absurd ((hasSubscription_iff_countTopic c.subscriptions t).mpr hpos) h2
      have h2' : hasSubscription c.subscriptions t = false :=
        Bool.not_eq_true _ ▸ eq_false_of_ne_true h2
      simp [addSubscription, h2', countTopic_append, hts]
  | reqPublish t q p =>
    simp only [step, requestPublish]
    split_ifs <;> rfl
  | reqUnsubscribe t =>
    simp only [isUnsubscribeOf, beq_eq_false_iff_ne, ne_eq] at hna
    simp only [step, requestUnsubscribe]
    split_ifs with h1 h2
    · rfl
    · exact countTopic_removeSubscription c.subscriptions t T hna
    · rfl

/-- Running a sequence of actions none of which unsubscribes `T` preserves
a positive count of `T` exactly. -/
lemma countTopic_run (as : List Action) (c : MqttClientState) (T : String)
    (hna : ∀ a ∈ as, isUnsubscribeOf T a = false)
    (hpos : 0 < countTopic c.subscriptions T) :
    countTopic (run c as).subscriptions T = countTopic c.subscriptions T := by
  induction as generalizing c with
  | nil => rfl
  | cons a rest ih =>
    have h1 := countTopic_step c a T (hna a (List.mem_cons_self a rest)) hpos
    have h2 := ih (step c a).next (fun x hx => hna x (List.mem_cons_of_mem a hx))
      (by rw [h1]; exact hpos)
    rw [run, h2, h1]

/-- `removeSubscription` yields a sublist of its input. -/
lemma removeSubscription_sublist (l : List Subscription) (t : String) :
    (removeSubscription l t).2.Sublist l := by
  induction l with
  | nil => exact List.Sublist.refl []
  | cons s rest ih =>
    simp only [removeSubscription]
    by_cases h : s.topic == t
    · have hr : (if s.topic == t then (true, rest)
          else ((removeSubscription rest t).1, s :: (removeSubscription rest t).2)).2
            = rest := by
        simp [h]
      rw [hr]
      exact List.sublist_cons_self s rest
    · simpa [h] using List.Sublist.cons₂ s ih

/-- One step preserves uniqueness of topic strings in the registry. -/
lemma topicsNodup_step (c : MqttClientState) (a : Action)
    (h : topicsNodup c.subscriptions) :
    topicsNodup (step c a).next.subscriptions := by
  cases a with
  | reqConnect => exact h
  | reqDisconnect => exact h
  | worker e => rw [step, handleWorkerEvent_subscriptions]; exact h
  | reqPublish t q p =>
    simp only [step, requestPublish]
    split_ifs <;> exact h
  | reqUnsubscribe t =>
    simp only [step, requestUnsubscribe]
    split_ifs with h1 h2
    · exact h
    · exact ((removeSubscription_sublist c.subscriptions t).map Subscription.topic).nodup h
    · exact h
  | reqSubscribe t q col =>
    simp only [step, requestSubscribe]
    split_ifs with h1 h2
    · exact h
    · exact h
    · have h2' : hasSubscription c.subscriptions t = false :=
        Bool.not_eq_true _ ▸ eq_false_of_ne_true h2
      have hmem : t ∉ c.subscriptions.map Subscription.topic := by
        intro hc
        rw [← hasSubscription_iff_mem] at hc
        exact absurd hc (by simp [h2'])
      have hmem' : ∀ x ∈ c.subscriptions, ¬x.topic = t := by
        intro x hx hxt
        exact hmem (List.mem_map.mpr ⟨x, hx, hxt⟩)
      simp only [topicsNodup, addSubscription, h2', Bool.false_eq_true, if_false,
        List.map_append]
      simpa [List.nodup_append] using ⟨h, hmem'⟩

/-- A concrete reachable `ConnectionConnected` client: a fresh client after
`requestConnect()` followed by the broker's CONNACK callback. -/
def connectedClient : MqttClientState :=
  run initialClient
    [Action.reqConnect,
     Action.worker (WorkerEvent.connack false ConnectReturnCode.accepted)]

/-! ### Claim theorems -/

/-- Claim C1, counterexample: after `connect()` and the broker's CONNACK the
client is `Connected`; a further `connect()` call from `Connected` is not
rejected with `InvalidStateError`: it transitions to `Connecting` and emits
`StateChanged(Connecting)`, so illegal calls are neither rejected nor free
of state transitions. -/
theorem C1_counterexample :
    connectedClient.state = ConnectionState.ConnectionConnected ∧
    (step connectedClient Action.reqConnect).result ≠ RequestResult.invalidStateError ∧
    (step connectedClient Action.reqConnect).next.state
      = ConnectionState.ConnectionConnecting ∧
    (step connectedClient Action.reqConnect).events
      = [UiEvent.stateChanged ConnectionState.ConnectionConnecting] := by
  decide

/-- Claim C1, amended: `connect()` and `disconnect()` perform no state
validation at all. In every state, `connect()` succeeds, transitions to
`Connecting`, emits `StateChanged(Connecting)` and issues the network
connect; in every state, `disconnect()` succeeds, transitions to
`Disconnecting`, emits `StateChanged(Disconnecting)` and issues the network
disconnect. Neither call is ever rejected with `InvalidStateError`. -/
theorem C1_connect_disconnect_unguarded (c : MqttClientState) :
    (requestConnect c).result = RequestResult.ok ∧
    (requestConnect c).next = { c with state := ConnectionState.ConnectionConnecting } ∧
    (requestConnect c).events = [UiEvent.stateChanged ConnectionState.ConnectionConnecting] ∧
    (requestConnect c).ops = [NetOp.asyncConnect] ∧
    (requestDisconnect c).result = RequestResult.ok ∧
    (requestDisconnect c).next = { c with state := ConnectionState.ConnectionDisconnecting } ∧
    (requestDisconnect c).events = [UiEvent.stateChanged ConnectionState.ConnectionDisconnecting] ∧
    (requestDisconnect c).ops = [NetOp.asyncDisconnect] :=
  ⟨rfl, rfl, rfl, rfl, rfl, rfl, rfl, rfl⟩

/-- Claim C2, counterexample: from `Connecting`, a CONNACK carrying the
rejection code `not_authorized` drives the session to `Connected` (the
handler ignores the return code), not to `ConnectFailed`; and a transport
error leaves the session in `Connecting` (the error handler only logs), so
a failed attempt neither reaches `ConnectFailed` nor `Disconnected`. -/
theorem C2_counterexample :
    (requestConnect initialClient).next.state = ConnectionState.ConnectionConnecting ∧
    (handleWorkerEvent (requestConnect initialClient).next
        (WorkerEvent.connack false ConnectReturnCode.notAuthorized)).next.state
      = ConnectionState.ConnectionConnected ∧
    (handleWorkerEvent (requestConnect initialClient).next
        (WorkerEvent.connack false ConnectReturnCode.notAuthorized)).next.state
      ≠ ConnectionState.ConnectionConnectFailed ∧
    (handleWorkerEvent (requestConnect initialClient).next
        (WorkerEvent.transportError "connection refused")).next.state
      = ConnectionState.ConnectionConnecting := by
  decide

/-- Claim C2, amended: a failed connect attempt is never reported as
`ConnectFailed`. Every CONNACK — accepted or rejected — drives the session
to `Connected` and emits `StateChanged(Connected)`; a transport error
changes nothing and emits nothing; and no step ever enters `ConnectFailed`
from another state. -/
theorem C2_connack_always_connected (c : MqttClientState) (sp : Bool)
    (rc : ConnectReturnCode) (msg : String) (a : Action) :
    (handleWorkerEvent c (WorkerEvent.connack sp rc)).next.state
      = ConnectionState.ConnectionConnected ∧
    (handleWorkerEvent c (WorkerEvent.connack sp rc)).events
      = [UiEvent.stateChanged ConnectionState.ConnectionConnected] ∧
    (handleWorkerEvent c (WorkerEvent.transportError msg)).next = c ∧
    (handleWorkerEvent c (WorkerEvent.transportError msg)).events = [] ∧
    ((step c a).next.state ≠ ConnectionState.ConnectionConnectFailed ∨
      c.state = ConnectionState.ConnectionConnectFailed) := by
  refine ⟨rfl, rfl, rfl, rfl, ?_⟩
  rcases step_state_cases c a with h | h | h | h | h
  · by_cases hc : c.state = ConnectionState.ConnectionConnectFailed
    · exact Or.inr hc
    · exact Or.inl (by rw [h]; exact hc)
  all_goals exact Or.inl (by rw [h]; decide)

/-- Claim C4, counterexample: in a connected session, after
`subscribe("a/b", ...)` optimistically registers the topic, a subsequent
worker error event leaves the registry entry in place and surfaces no
event at all — there is no rollback and no failure notification. -/
theorem C4_counterexample :
    hasSubscription (step connectedClient
        (Action.reqSubscribe "a/b" QoS.AtMostOnce "red")).next.subscriptions "a/b"
      = true ∧
    (handleWorkerEvent (step connectedClient
        (Action.reqSubscribe "a/b" QoS.AtMostOnce "red")).next
        (WorkerEvent.transportError "subscribe failed")).next.subscriptions
      = (step connectedClient
        (Action.reqSubscribe "a/b" QoS.AtMostOnce "red")).next.subscriptions ∧
    (handleWorkerEvent (step connectedClient
        (Action.reqSubscribe "a/b" QoS.AtMostOnce "red")).next
        (WorkerEvent.transportError "subscribe failed")).events = [] := by
  decide

/-- Claim C4, amended: there is no rollback path. No worker callback ever
modifies the subscription registry (the client installs no subscribe
acknowledgment handler), and the only signal any step emits is
`stateChanged` — the declared `subscribeResult` failure signal is never
emitted. An optimistically registered topic therefore survives any later
worker-reported failure. -/
theorem C4_no_rollback (c : MqttClientState) (e : WorkerEvent) (a : Action) :
    (handleWorkerEvent c e).next.subscriptions = c.subscriptions ∧
    ((step c a).events.all isStateChangedEvent) = true :=
  ⟨handleWorkerEvent_subscriptions c e, step_events_stateChanged c a⟩

/-- In a connected client whose registry already holds a topic, a
subscribe request for that topic takes the duplicate-rejection branch and
changes nothing. -/
lemma requestSubscribe_duplicate (c : MqttClientState) (T : String) (q : QoS)
    (col : String) (hconn : c.state = ConnectionState.ConnectionConnected)
    (hhas : hasSubscription c.subscriptions T = true) :
    requestSubscribe c T q col
      = { next := c, events := [], ops := [],
          result := RequestResult.duplicateSubscriptionError } := by
  simp [requestSubscribe, hconn, hhas]

/-- Claim C3: after `subscribe(T, qos, color)` succeeds, any later
`subscribe(T, ...)` issued while still connected and before any
`unsubscribe(T)` — with arbitrary other requests and worker events in
between — is rejected as a duplicate, changes nothing, and the registry
still holds exactly one entry for `T`; moreover every operation preserves
uniqueness of topic strings in the registry. -/
theorem C3_subscription_uniqueness :
    (∀ (c : MqttClientState) (T : String) (q : QoS) (col : String)
        (as : List Action) (q2 : QoS) (col2 : String),
      (requestSubscribe c T q col).result = RequestResult.ok →
      (∀ a ∈ as, isUnsubscribeOf T a = false) →
      (run (requestSubscribe c T q col).next as).state
          = ConnectionState.ConnectionConnected →
      (requestSubscribe (run (requestSubscribe c T q col).next as) T q2 col2).result
          = RequestResult.duplicateSubscriptionError ∧
        (requestSubscribe (run (requestSubscribe c T q col).next as) T q2 col2).next
          = run (requestSubscribe c T q col).next as ∧
        countTopic (run (requestSubscribe c T q col).next as).subscriptions T = 1) ∧
    (∀ (c : MqttClientState) (a : Action),
      topicsNodup c.subscriptions → topicsNodup (step c a).next.subscriptions) := by
  constructor
  · intro c T q col as q2 col2 hok hall hconn
    have h1 : c.state = ConnectionState.ConnectionConnected := by
      by_contra h1
      simp [requestSubscribe, h1] at hok
    have h2 : hasSubscription c.subscriptions T = false := by
      cases hb : hasSubscription c.subscriptions T with
      | false => rfl
      | true => simp [requestSubscribe, h1, hb] at hok
    have hnext : (requestSubscribe c T q col).next
        = { c with subscriptions := c.subscriptions
            ++ [{ topic := T, qos := q, color := parseColor col }] } := by
      simp [requestSubscribe, addSubscription, h1, h2]
    have h0 : countTopic c.subscriptions T = 0 := by
      by_contra hc
      have hpos : 0 < countTopic c.subscriptions T := Nat.pos_of_ne_zero hc
      have := (hasSubscription_iff_countTopic c.subscriptions T).mpr hpos
      simp [this] at h2
    have hcount1 : countTopic (requestSubscribe c T q col).next.subscriptions T = 1 := by
      rw [hnext]
      simp [countTopic_append, h0]
    have hrun : countTopic (run (requestSubscribe c T q col).next as).subscriptions T
        = 1 := by
      rw [countTopic_run as _ T hall (by rw [hcount1]; exact Nat.one_pos), hcount1]
    have hhas : hasSubscription
        (run (requestSubscribe c T q col).next as).subscriptions T = true :=
      (hasSubscription_iff_countTopic _ _).mpr (by rw [hrun]; exact Nat.one_pos)
    have hdup := requestSubscribe_duplicate
      (run (requestSubscribe c T q col).next as) T q2 col2 hconn hhas
    exact ⟨by rw [hdup], by rw [hdup], hrun⟩
  · exact fun c a h => topicsNodup_step c a h

/-- Claim C3, witness: in a connected session with an empty registry,
subscribing to `"a"`, publishing something else, then subscribing to `"a"`
again hits the duplicate rejection with exactly one registry entry. -/
theorem C3_subscription_uniqueness_witness :
    (requestSubscribe (run (requestSubscribe
        { state := ConnectionState.ConnectionConnected, subscriptions := [], messages := [] }
        "a" QoS.AtMostOnce "red").next
        [Action.reqPublish "x" QoS.AtMostOnce [1]]) "a" QoS.ExactOnce "blue").result
      = RequestResult.duplicateSubscriptionError ∧
    countTopic (run (requestSubscribe
        { state := ConnectionState.ConnectionConnected, subscriptions := [], messages := [] }
        "a" QoS.AtMostOnce "red").next
        [Action.reqPublish "x" QoS.AtMostOnce [1]]).subscriptions "a" = 1 := by
  have h := C3_subscription_uniqueness.1
    { state := ConnectionState.ConnectionConnected, subscriptions := [], messages := [] }
    "a" QoS.AtMostOnce "red" [Action.reqPublish "x" QoS.AtMostOnce [1]]
    QoS.ExactOnce "blue" (by decide) (by decide) (by decide)
  exact ⟨h.1, h.2.2⟩

/-- Claim C5: in any state other than `Connected`, `subscribe`,
`unsubscribe` and `publish` are rejected synchronously with the
invalid-state warning, issue no network operation, emit no event, and
leave the whole client state (registry, log, connection state)
unchanged. -/
theorem C5_fail_fast (c : MqttClientState) (topic : String) (qos : QoS)
    (color : String) (payload : List Nat)
    (h : c.state ≠ ConnectionState.ConnectionConnected) :
    requestSubscribe c topic qos color
      = { next := c, events := [], ops := [], result := RequestResult.invalidStateError } ∧
    requestUnsubscribe c topic
      = { next := c, events := [], ops := [], result := RequestResult.invalidStateError } ∧
    requestPublish c topic qos payload
      = { next := c, events := [], ops := [], result := RequestResult.invalidStateError } := by
  refine ⟨?_, ?_, ?_⟩ <;>
    simp [requestSubscribe, requestUnsubscribe, requestPublish, h]

/-- Claim C5, witness: on a fresh (disconnected) client, `publish` is
rejected with the invalid-state result and changes nothing. -/
theorem C5_fail_fast_witness :
    requestPublish initialClient "t" QoS.AtMostOnce [1]
      = { next := initialClient, events := [], ops := [],
          result := RequestResult.invalidStateError } :=
  (C5_fail_fast initialClient "t" QoS.AtMostOnce "red" [1] (by decide)).2.2

/-- Claim C6, counterexample: a publish accepted while `Connected` with
caller QoS `AtMostOnce` and payload `[104, 0, 105]` is issued on the wire
with QoS `ExactOnce` (hard-coded `MQTT_NS::qos::exactly_once`) and with the
payload truncated at its first zero byte — not with the caller-supplied
QoS and payload. -/
theorem C6_counterexample :
    (requestPublish connectedClient "t" QoS.AtMostOnce [104, 0, 105]).ops
      = [NetOp.asyncPublish "t" [104] QoS.ExactOnce false] ∧
    (requestPublish connectedClient "t" QoS.AtMostOnce [104, 0, 105]).ops
      ≠ [NetOp.asyncPublish "t" [104, 0, 105] QoS.AtMostOnce false] := by
  decide

/-- Claim C6, amended: for every publish accepted while `Connected`, the
protocol-level publish carries the caller's topic, the payload truncated
at its first zero byte (it is passed through `constData()` as a C string),
a QoS level that is always `ExactOnce` regardless of the caller's `qos`
argument, and no retain flag (the implementation passes none, so retain is
false). -/
theorem C6_publish_issued_op (c : MqttClientState) (topic : String) (qos : QoS)
    (payload : List Nat) (h : c.state = ConnectionState.ConnectionConnected) :
    (requestPublish c topic qos payload).ops
      = [NetOp.asyncPublish topic (cStringBytes payload) QoS.ExactOnce false] := by
  simp [requestPublish, h]

/-- Claim C6, witness: the amended statement evaluated on a connected
client with a payload containing an interior zero byte. -/
theorem C6_publish_issued_op_witness :
    (requestPublish connectedClient "t" QoS.AtLeastOnce [104, 0, 105]).ops
      = [NetOp.asyncPublish "t" (cStringBytes [104, 0, 105]) QoS.ExactOnce false] :=
  C6_publish_issued_op connectedClient "t" QoS.AtLeastOnce [104, 0, 105] (by decide)

/-- Claim C7: a publish accepted while `Connected` appends — before the
call returns — exactly one outbound message (`is_publish = true`) carrying
the caller's topic and full payload at the end of the message log, leaving
all earlier entries untouched. -/
theorem C7_publish_appends_outbound (c : MqttClientState) (topic : String)
    (qos : QoS) (payload : List Nat)
    (h : c.state = ConnectionState.ConnectionConnected) :
    (requestPublish c topic qos payload).next.messages
      = c.messages
        ++ [{ topic := topic, qos := qos, is_publish := true, payload := payload }] := by
  simp [requestPublish, addMessage, h]

/-- Claim C7, witness: publishing on a concrete connected client appends
the outbound record at the end of the log. -/
theorem C7_publish_appends_outbound_witness :
    (requestPublish connectedClient "t" QoS.AtLeastOnce [104, 105]).next.messages
      = connectedClient.messages
        ++ [{ topic := "t", qos := QoS.AtLeastOnce, is_publish := true,
              payload := [104, 105] }] :=
  C7_publish_appends_outbound connectedClient "t" QoS.AtLeastOnce [104, 105] (by decide)

/-- Claim C8: `addMessage` is pure append. The new log is exactly the old
log with the new message at the end; the length grows by one; the first
`length` entries are exactly the old log (nothing mutated, removed or
reordered); the announced insertion range is the index of the appended
message, at which the new log holds exactly that message; and any sequence
of appends concatenates in signal order. -/
theorem C8_addMessage_append (l : List MqttMessage) (m : MqttMessage)
    (ms : List MqttMessage) :
    addMessage l m = (l ++ [m], { first := l.length, last := l.length }) ∧
    (addMessage l m).1.length = l.length + 1 ∧
    (addMessage l m).1.take l.length = l ∧
    (addMessage l m).1[l.length]? = some m ∧
    List.foldl (fun acc x => (addMessage acc x).1) l ms = l ++ ms := by
  refine ⟨rfl, by simp [addMessage], ?_, ?_, ?_⟩
  · simp [addMessage, List.take_left]
  · simp [addMessage, List.getElem?_concat_length]
  · induction ms generalizing l with
    | nil => simp
    | cons x rest ih =>
      rw [List.foldl_cons]
      have hx : (addMessage l x).1 = l ++ [x] := rfl
      rw [hx, ih (l ++ [x])]
      simp

/-- Claim C9: `SubscriptionModel::data` tests `index.isValid()` the wrong
way round. For every valid index (any row) and every role it returns the
empty `QVariant`; the stored topic, color and qos of an entry are only
readable through an invalid index. -/
theorem C9_data_valid_returns_empty :
    (∀ (l : List Subscription) (row : Nat) (role : SubscriptionRole),
      subscriptionModelData l { valid := true, row := row } role = QVariant.empty) ∧
    (∀ (sub : Subscription) (l : List Subscription),
      subscriptionModelData (sub :: l) { valid := false, row := 0 }
          SubscriptionRole.kTopicRole = QVariant.ofString sub.topic ∧
      subscriptionModelData (sub :: l) { valid := false, row := 0 }
          SubscriptionRole.kColorRole = QVariant.ofColor sub.color ∧
      subscriptionModelData (sub :: l) { valid := false, row := 0 }
          SubscriptionRole.kQoSRole = QVariant.ofQoS sub.qos) :=
  ⟨fun _ _ _ => rfl, fun _ _ => ⟨rfl, rfl, rfl⟩⟩

/-- Claim C10: a freshly constructed `SubscriptionModel` already holds
exactly one entry, `{"Hello", Qt::red, AtMostOnce}`, so
`hasSubscription("Hello")` is true before any subscribe call, and the
first subscribe of `"Hello"` on a freshly connected session is rejected as
a duplicate and changes nothing. -/
theorem C10_initial_hello (q : QoS) (col : String) :
    initialSubscriptions
      = [{ topic := "Hello", qos := QoS.AtMostOnce, color := Color.red }] ∧
    hasSubscription initialClient.subscriptions "Hello" = true ∧
    initialClient.subscriptions.length = 1 ∧
    (requestSubscribe connectedClient "Hello" q col).result
      = RequestResult.duplicateSubscriptionError ∧
    (requestSubscribe connectedClient "Hello" q col).next = connectedClient := by
  refine ⟨rfl, by decide, rfl, ?_, ?_⟩ <;>
    rw [requestSubscribe_duplicate connectedClient "Hello" q col (by decide) (by decide)]

end Hebo
